import Mathlib

/-!
Shallow embedding of the MimoFPS firmware (src/src/main.rs): the R503
serial-frame encoder `send` and the wake-reactive control loop in `main`.
Bytes are modelled as `Nat` (values < 256 where the source has `u8`),
`heapless::Vec<u8, CAP>` as a `List Nat` together with the capacity
semantics of its fallible operations, and the control loop's single
iteration as a trace-producing function over the transport's behaviour.
-/

/-- Big-endian byte serialisation of a `u16` (`u16::to_be_bytes`). -/
def u16_be (n : Nat) : List Nat := [n / 256 % 256, n % 256]

/-- Big-endian byte serialisation of a `u32` (`u32::to_be_bytes`). -/
def u32_be (n : Nat) : List Nat :=
  [n / 16777216 % 256, n / 65536 % 256, n / 256 % 256, n % 256]

/-- Modelled from the spec: the `r503` crate's `HEADER` constant, the fixed
2-byte magic value 0xEF01 (spec section 6 and the comment in `send`). -/
def HEADER : Nat := 0xEF01

/-- Modelled from the spec: the `r503` crate's `ADDRESS` constant, the fixed
4-byte default address 0xFFFFFFFF (comment in `send`). -/
def ADDRESS : Nat := 0xFFFFFFFF

/-- Modelled from the spec: the `r503` crate's `Identifier` enum
(packet role). -/
inductive Identifier where
  | Command
  | Data
  | Acknowledge
  | EndOfData
deriving DecidableEq

/-- Modelled from the spec: the byte value of each `Identifier`
(Command=0x01, Data=0x02, Acknowledge=0x07, EndOfData=0x08; spec section 6). -/
def Identifier.toByte : Identifier → Nat
  | .Command => 0x01
  | .Data => 0x02
  | .Acknowledge => 0x07
  | .EndOfData => 0x08

/-- Modelled from the spec: the `r503` crate's `Instruction` type, kept
abstract as its 1-byte code since the spec fixes no code values
(the Command Catalog is an external static table). -/
structure Instruction where
  code : Nat
deriving DecidableEq

/-- Modelled from the spec: the `r503` crate's `Color` enum; only the
variants the control loop uses are needed, their byte codes stay abstract. -/
inductive Color where
  | Cyan
  | Blue
  | Green
deriving DecidableEq

/-- Modelled from the spec: the `r503` crate's `LightPattern` enum; only the
variants the control loop uses are needed, their byte codes stay abstract. -/
inductive LightPattern where
  | Breathing
  | AlwaysOn
deriving DecidableEq

/-- The external Command Catalog: the instruction code of the LED
configuration command and the byte encodings of colors and light patterns.
The source takes these from the `r503` crate; all claims hold for every
instantiation. -/
structure Catalog where
  auraLedConfig : Instruction
  colorByte : Color → Nat
  patternByte : LightPattern → Nat

/-- `heapless::Vec::extend_from_slice` on a vector of capacity `cap`:
all-or-nothing append, returning the vector unchanged when the slice does
not fit (the source discards the `Result` with `let _ =`). -/
def extendSlice (cap : Nat) (v s : List Nat) : List Nat :=
  if v.length + s.length ≤ cap then v ++ s else v

/-- `heapless::Vec::push` on a vector of capacity `cap` with the `Err`
discarded (`let _ = v.push b`): append when there is room, else unchanged. -/
def vpush (cap : Nat) (v : List Nat) (b : Nat) : List Nat :=
  if v.length < cap then v ++ [b] else v

/-- Modelled from the spec: the `r503` crate's `compute_checksum`, the
16-bit truncated arithmetic sum of every byte of the buffer from the
`identifier` byte (frame offset 6) onward — "the sub-range of a frame
starting at the `identifier` byte (frame offset 6) through the last
payload byte", summed mod 2^16 (spec section 4.1). In `send` it is applied
to the buffer holding header through payload, so the summed range is
everything after the 6-byte header+address prefix. -/
def compute_checksum (buf : List Nat) : Nat :=
  (buf.drop 6).sum % 65536

/-- The frame encoder `send` of src/src/main.rs (lines 126-169): header,
address, identifier, then — only when a payload is given — the 2-byte
big-endian length `1 + data.len() + 2`, then the instruction byte, the
payload bytes, and the 2-byte big-endian checksum over everything from
offset 6. The output buffer is a `heapless::Vec<u8, 256>`; every
`extend_from_slice`/`push` result is discarded, matching the source. -/
def send (pid : Identifier) (command : Instruction) (data : Option (List Nat)) :
    List Nat :=
  let buf : List Nat := []
  let buf := extendSlice 256 buf (u16_be HEADER)
  let buf := extendSlice 256 buf (u32_be ADDRESS)
  let buf := extendSlice 256 buf [pid.toByte]
  let buf :=
    match data with
    | some d => extendSlice 256 buf (u16_be (1 + d.length + 2))
    | none => buf
  let buf := vpush 256 buf command.code
  let buf :=
    match data with
    | some d => extendSlice 256 buf d
    | none => buf
  let chk := compute_checksum buf
  extendSlice 256 buf (u16_be chk)

/-- Checked variant of `extendSlice`: `none` when the slice does not fit,
recording that this `extend_from_slice` call would have returned `Err`. -/
def extendChecked (cap : Nat) (v s : List Nat) : Option (List Nat) :=
  if v.length + s.length ≤ cap then some (v ++ s) else none

/-- Checked variant of `vpush`: `none` when the vector is full. -/
def pushChecked (cap : Nat) (v : List Nat) (b : Nat) : Option (List Nat) :=
  if v.length < cap then some (v ++ [b]) else none

/-- `send` with every internal fallible step made explicit: each
`extend_from_slice`/`push` yields `none` instead of silently dropping, and
the `usize → u16` conversion `(1 + data.len() + 2).try_into().unwrap()`
(line 148) yields `none` when the value exceeds `u16::MAX` (where the
source would panic). `sendChecked = some (send ...)` says every fallible
step of `send` succeeds on that input. -/
def sendChecked (pid : Identifier) (command : Instruction)
    (data : Option (List Nat)) : Option (List Nat) := do
  let buf : List Nat := []
  let buf ← extendChecked 256 buf (u16_be HEADER)
  let buf ← extendChecked 256 buf (u32_be ADDRESS)
  let buf ← extendChecked 256 buf [pid.toByte]
  let buf ←
    match data with
    | some d =>
        if 1 + d.length + 2 < 65536 then
          extendChecked 256 buf (u16_be (1 + d.length + 2))
        else none
    | none => pure buf
  let buf ← pushChecked 256 buf command.code
  let buf ←
    match data with
    | some d => extendChecked 256 buf d
    | none => pure buf
  let chk := compute_checksum buf
  extendChecked 256 buf (u16_be chk)

/-- The logic level of the WAKEUP line (`embassy_rp::gpio::Level`). -/
inductive Level where
  | Low
  | High
deriving DecidableEq

/-- The color selected from the level sampled right after the wake edge
(src/src/main.rs lines 59-62): Low maps to Cyan, High to Blue. -/
def colorOf : Level → Color
  | .Low => Color.Cyan
  | .High => Color.Blue

/-- The primary LED-configuration payload built at lines 64-72: four pushes
into a `heapless::Vec<u8, 32>`: breathing pattern, speed 0xFF, the selected
color, repeat count 0. -/
def primaryData (cat : Catalog) (c : Color) : List Nat :=
  vpush 32 (vpush 32 (vpush 32 (vpush 32 []
    (cat.patternByte LightPattern.Breathing)) 0xFF) (cat.colorByte c)) 0x00

/-- The follow-up (acknowledge) payload built at lines 105-110: always-on
pattern, speed 0x00, Green, repeat count 0. -/
def ackData (cat : Catalog) : List Nat :=
  vpush 32 (vpush 32 (vpush 32 (vpush 32 []
    (cat.patternByte LightPattern.AlwaysOn)) 0x00) (cat.colorByte Color.Green)) 0x00

/-- The primary command frame written at line 83. -/
def primaryFrame (cat : Catalog) (level : Level) : List Nat :=
  send Identifier.Command cat.auraLedConfig (some (primaryData cat (colorOf level)))

/-- The follow-up command frame written at line 117. -/
def ackFrame (cat : Catalog) : List Nat :=
  send Identifier.Command cat.auraLedConfig (some (ackData cat))

/-- Outcome of the reply-drain loop (lines 92-99) on a finite prefix of the
transport's behaviour. -/
inductive DrainResult where
  /-- `with_timeout` expired: the `Err(..) => break` arm ran. -/
  | timedOut (buf : List Nat)
  /-- a byte arrived with the 64-byte buffer full: `push(..).unwrap()`
  on the `Err` panics. -/
  | panicked (buf : List Nat)
  /-- the given finite trace ended before any timeout: the loop is still
  running and needs more transport behaviour to decide. -/
  | starved (buf : List Nat)
deriving DecidableEq

/-- The reply-drain loop of lines 92-99. Each element of `outs` is one
`with_timeout(500ms, rx.read(..))` outcome: `some b` means a byte `b` was
delivered within the window (the source's `Ok(..)` arm, which then runs
`data_read.push(read_buf[0]).unwrap()` on the `heapless::Vec<u8, 64>`),
`none` means the timeout fired (the `Err(..) => break` arm). -/
def drainLoop : List Nat → List (Option Nat) → DrainResult
  | buf, [] => DrainResult.starved buf
  | buf, none :: _ => DrainResult.timedOut buf
  | buf, some b :: rest =>
      if buf.length < 64 then drainLoop (buf ++ [b]) rest
      else DrainResult.panicked buf

/-- One observable event of a control-loop iteration: a frame written to the
transport together with the write's result (`true` = `Ok`, `false` = the
logged-and-ignored `Err`), or the termination of the reply drain with the
accumulated bytes. -/
inductive Event where
  | write (frame : List Nat) (ok : Bool)
  | drainEnd (buf : List Nat)
deriving DecidableEq

/-- Result of one control-loop iteration: the iteration ran to its end and
the loop returns to waiting for the next edge, or it aborted in a panic, or
the supplied finite transport trace was exhausted mid-drain. -/
inductive IterResult where
  | complete (events : List Event)
  | panicked (events : List Event)
  | starved (events : List Event)
deriving DecidableEq

/-- One iteration of the control loop (src/src/main.rs lines 57-122), as a
function of the level sampled after the wake edge, the results of the two
transport writes (`w1` for the primary write at line 83, `w2` for the
follow-up write at line 117; the source logs an `Err` and continues), and
the reply-drain outcomes `reads`. `into_array::<16>().unwrap()` at lines 81
and 116 panics unless the frame is exactly 16 bytes, modelled by the length
checks. -/
def iteration (cat : Catalog) (level : Level) (w1 w2 : Bool)
    (reads : List (Option Nat)) : IterResult :=
  let color := colorOf level
  let sendBuf := primaryFrame cat level
  if sendBuf.length = 16 then
    let ev1 := Event.write sendBuf w1
    match drainLoop [] reads with
    | DrainResult.starved _ => IterResult.starved [ev1]
    | DrainResult.panicked _ => IterResult.panicked [ev1]
    | DrainResult.timedOut buf =>
        if color = Color.Cyan then
          let ackBuf := ackFrame cat
          if ackBuf.length = 16 then
            IterResult.complete [ev1, Event.drainEnd buf, Event.write ackBuf w2]
          else IterResult.panicked [ev1, Event.drainEnd buf]
        else IterResult.complete [ev1, Event.drainEnd buf]
  else IterResult.panicked []

/-- The events recorded by an iteration, whatever its outcome. -/
def IterResult.events : IterResult → List Event
  | IterResult.complete evs => evs
  | IterResult.panicked evs => evs
  | IterResult.starved evs => evs

/-- Whether the iteration ran to its end. -/
def IterResult.isComplete : IterResult → Bool
  | IterResult.complete _ => true
  | _ => false

/-- The frame of a write event, `none` for the drain-end marker. -/
def Event.writtenFrame : Event → Option (List Nat)
  | Event.write f _ => some f
  | Event.drainEnd _ => none

/-- The frames an iteration wrote to the transport, in order. -/
def framesOf (r : IterResult) : List (List Nat) :=
  r.events.filterMap Event.writtenFrame

/-- The bytes accumulated by the reply drain when it terminated, if it did. -/
def drainOf (r : IterResult) : Option (List Nat) :=
  r.events.filterMap (fun e =>
    match e with
    | Event.drainEnd buf => some buf
    | _ => none) |>.head?

/-- A concrete Command Catalog instance, used to evaluate the model on
concrete inputs (the claims hold for every instance). -/
def cat0 : Catalog where
  auraLedConfig := Instruction.mk 0x35
  colorByte := fun _ => 0
  patternByte := fun _ => 0

theorem send_some_eq (pid : Identifier) (cmd : Instruction) (data : List Nat)
    (h : data.length ≤ 32) :
    send pid cmd (some data) =
      239 :: 1 :: 255 :: 255 :: 255 :: 255 :: pid.toByte :: 0 :: (1 + data.length + 2) ::
        cmd.code :: (data ++
          u16_be ((pid.toByte + (1 + data.length + 2) + cmd.code + data.sum) % 65536)) := by
  have hmod : (1 + data.length + 2) % 256 = 1 + data.length + 2 :=
    Nat.mod_eq_of_lt (by omega)
  have hdiv : (1 + data.length + 2) / 256 % 256 = 0 := by omega
  simp only [send, extendSlice, vpush, compute_checksum, u16_be, u32_be, HEADER, ADDRESS,
    List.length_append, List.length_cons, List.length_nil, List.nil_append,
    List.cons_append, List.append_nil, List.sum_cons, List.sum_append]
  norm_num [hmod, hdiv]
  split_ifs with h1 h2 h3
  · have hdrop : List.drop 6
        (239 :: 1 :: 255 :: 255 :: 255 :: 255 :: pid.toByte :: 0 :: (1 + data.length + 2) ::
          cmd.code :: data) = pid.toByte :: 0 :: (1 + data.length + 2) :: cmd.code :: data := by
      simp
    simp [hdrop]
    exact ⟨by omega, by omega⟩
  · exfalso
    simp only [List.length_cons] at h2
    omega
  · exfalso
    omega
  · exfalso
    omega

theorem send_none_eq (pid : Identifier) (cmd : Instruction) :
    send pid cmd none =
      239 :: 1 :: 255 :: 255 :: 255 :: 255 :: pid.toByte :: cmd.code ::
        u16_be ((pid.toByte + cmd.code) % 65536) := by
  simp only [send, extendSlice, vpush, compute_checksum, u16_be, u32_be, HEADER, ADDRESS,
    List.length_append, List.length_cons, List.length_nil, List.nil_append,
    List.cons_append, List.append_nil, List.sum_cons, List.sum_append]
  norm_num

theorem primaryData_eq (cat : Catalog) (c : Color) :
    primaryData cat c =
      [cat.patternByte LightPattern.Breathing, 0xFF, cat.colorByte c, 0x00] := by
  simp [primaryData, vpush]

theorem ackData_eq (cat : Catalog) :
    ackData cat =
      [cat.patternByte LightPattern.AlwaysOn, 0x00, cat.colorByte Color.Green, 0x00] := by
  simp [ackData, vpush]

theorem primaryFrame_length (cat : Catalog) (level : Level) :
    (primaryFrame cat level).length = 16 := by
  rw [primaryFrame, primaryData_eq, send_some_eq _ _ _ (by simp)]
  simp [u16_be]

theorem ackFrame_length (cat : Catalog) :
    (ackFrame cat).length = 16 := by
  rw [ackFrame, ackData_eq, send_some_eq _ _ _ (by simp)]
  simp [u16_be]

theorem ackFrame_ne_primaryFrame (cat : Catalog) (level : Level) :
    ackFrame cat ≠ primaryFrame cat level := by
  intro hEq
  rw [ackFrame, ackData_eq, primaryFrame, primaryData_eq,
    send_some_eq _ _ _ (by simp), send_some_eq _ _ _ (by simp)] at hEq
  have h11 := congrArg (fun l => l.get? 11) hEq
  simp [u16_be] at h11

theorem drainLoop_yields_then_stall (bytes : List Nat) :
    ∀ (buf : List Nat) (rest : List (Option Nat)), buf.length + bytes.length ≤ 64 →
      drainLoop buf (bytes.map some ++ none :: rest) =
        DrainResult.timedOut (buf ++ bytes) := by
  induction bytes with
  | nil =>
      intro buf rest _
      simp [drainLoop]
  | cons b bs ih =>
      intro buf rest h
      have hlt : buf.length < 64 := by
        simp only [List.length_cons] at h
        omega
      have hrec : (buf ++ [b]).length + bs.length ≤ 64 := by
        simp only [List.length_append, List.length_cons, List.length_nil]
        simp only [List.length_cons] at h
        omega
      have hstep : drainLoop buf ((b :: bs).map some ++ none :: rest) =
          drainLoop (buf ++ [b]) (bs.map some ++ none :: rest) := by
        simp only [List.map_cons, List.cons_append, drainLoop]
        rw [if_pos hlt]
        rfl
      rw [hstep, ih (buf ++ [b]) rest hrec]
      simp

theorem drainLoop_timedOut_has_stall :
    ∀ (outs : List (Option Nat)) (buf0 buf : List Nat),
      drainLoop buf0 outs = DrainResult.timedOut buf → none ∈ outs := by
  intro outs
  induction outs with
  | nil =>
      intro buf0 buf h
      simp [drainLoop] at h
  | cons o rest ih =>
      intro buf0 buf h
      cases o with
      | none => exact List.mem_cons_self _ _
      | some b =>
          simp only [drainLoop] at h
          by_cases hc : buf0.length < 64
          · rw [if_pos hc] at h
            exact List.mem_cons_of_mem _ (ih _ _ h)
          · rw [if_neg hc] at h
            exact absurd h (by simp)

/-- C1 counterexample: in the no-payload case (`data = None`) `send` writes
no length field at all, so the claim "for every ... payload (... including
the no-payload case), the frame contains, immediately after the identifier
byte, a 2-byte big-endian length field equal to 1 + payload.len() + 2"
fails: for identifier Command, instruction code 0x35 and no payload, the
two bytes after the identifier byte are not the big-endian encoding of
1 + 0 + 2. -/
theorem C1_no_payload_counterexample :
    ¬ (((send Identifier.Command (Instruction.mk 0x35) none).drop 7).take 2 =
        u16_be (1 + 0 + 2)) := by
  decide

/-- C1 (amended): for every identifier, instruction, and payload given as
`Some` byte sequence of length at most 32, the frame produced by `send`
contains, immediately after the identifier byte (at offsets 7-8), the
2-byte big-endian length field `1 + payload.len() + 2`; in the no-payload
case `send` emits no length field at all: the frame is 10 bytes, the
instruction byte directly following the identifier byte. -/
theorem C1_length_field (pid : Identifier) (cmd : Instruction) (data : List Nat)
    (h : data.length ≤ 32) :
    ((send pid cmd (some data)).drop 7).take 2 = u16_be (1 + data.length + 2) ∧
      (send pid cmd none).length = 10 := by
  constructor
  · rw [send_some_eq pid cmd data h]
    simp [u16_be]
    constructor
    · omega
    · omega
  · rw [send_none_eq]
    simp [u16_be]

/-- C1 witness: the amended length-field property evaluated at identifier
Command, instruction code 0x35 and payload [1, 2, 3]. -/
theorem C1_length_field_witness :
    (([1, 2, 3] : List Nat).length ≤ 32) ∧
    (((send Identifier.Command (Instruction.mk 0x35) (some [1, 2, 3])).drop 7).take 2 =
        u16_be (1 + ([1, 2, 3] : List Nat).length + 2) ∧
      (send Identifier.Command (Instruction.mk 0x35) none).length = 10) :=
  ⟨by decide, C1_length_field Identifier.Command (Instruction.mk 0x35) [1, 2, 3] (by decide)⟩

/-- C2: for every identifier, instruction and payload of length at most 32,
the last 2 bytes of the frame produced by `send` are the big-endian
encoding of the 16-bit truncated arithmetic sum of exactly the bytes from
frame offset 6 (the identifier byte) through the last payload byte, i.e.
of the frame with its 6 header+address bytes and its trailing 2 checksum
bytes removed. -/
theorem C2_checksum (pid : Identifier) (cmd : Instruction) (data : List Nat)
    (h : data.length ≤ 32) :
    (send pid cmd (some data)).drop (10 + data.length) =
      u16_be ((((send pid cmd (some data)).take (10 + data.length)).drop 6).sum % 65536) := by
  have hs : send pid cmd (some data) =
      ([239, 1, 255, 255, 255, 255, pid.toByte, 0, 1 + data.length + 2, cmd.code] ++ data) ++
        u16_be ((pid.toByte + (1 + data.length + 2) + cmd.code + data.sum) % 65536) := by
    rw [send_some_eq pid cmd data h]
    simp
  rw [hs]
  have hlen : ([239, 1, 255, 255, 255, 255, pid.toByte, 0, 1 + data.length + 2, cmd.code]
      ++ data).length = 10 + data.length := by
    simp
    omega
  rw [← hlen, List.drop_left, List.take_left]
  have hdrop : (([239, 1, 255, 255, 255, 255, pid.toByte, 0, 1 + data.length + 2, cmd.code]
      ++ data).drop 6).sum = pid.toByte + (0 + ((1 + data.length + 2) + (cmd.code + data.sum))) := by
    simp
  rw [hdrop]
  congr 1
  omega

/-- C2 witness: the checksum property evaluated at identifier Command,
instruction code 0x35 and payload [1, 2, 3]. -/
theorem C2_checksum_witness :
    (([1, 2, 3] : List Nat).length ≤ 32) ∧
    ((send Identifier.Command (Instruction.mk 0x35) (some [1, 2, 3])).drop
        (10 + ([1, 2, 3] : List Nat).length) =
      u16_be ((((send Identifier.Command (Instruction.mk 0x35) (some [1, 2, 3])).take
          (10 + ([1, 2, 3] : List Nat).length)).drop 6).sum % 65536)) :=
  ⟨by decide, C2_checksum Identifier.Command (Instruction.mk 0x35) [1, 2, 3] (by decide)⟩

/-- C3 counterexample: the claimed total length "9 + 1 + payload.len()"
omits the 2 checksum bytes. For identifier Command, instruction code 0x35
and the 4-byte LED payload the frame `send` produces has length 16, not
9 + 1 + 4 = 14. -/
theorem C3_total_length_counterexample :
    ¬ ((send Identifier.Command (Instruction.mk 0x35) (some [1, 0xFF, 6, 0])).length =
        9 + 1 + ([1, 0xFF, 6, 0] : List Nat).length) := by
  decide

/-- C3 (amended): for every identifier, instruction and payload of length
at most 32, the frame produced by `send` has total length
9 + 1 + payload.len() + 2 bytes, laid out in the order header (2 bytes),
address (4 bytes), identifier (1), length (2), instruction (1), payload,
checksum (2); in particular, for identifier = Command and the
LED-configuration payload [pattern, 0xFF, color, 0x00] the frame is
exactly 16 bytes, with byte 6 equal to 0x01 and bytes 7-8 equal to
0x00 0x07, for every instruction code and pattern/color bytes. -/
theorem C3_frame_layout (pid : Identifier) (cmd : Instruction) (data : List Nat)
    (h : data.length ≤ 32) :
    (send pid cmd (some data)).length = 9 + 1 + data.length + 2 ∧
    send pid cmd (some data) =
      u16_be HEADER ++ u32_be ADDRESS ++ [pid.toByte] ++ u16_be (1 + data.length + 2) ++
        [cmd.code] ++ data ++
        u16_be (compute_checksum (u16_be HEADER ++ u32_be ADDRESS ++ [pid.toByte] ++
          u16_be (1 + data.length + 2) ++ [cmd.code] ++ data)) ∧
    (∀ (instr : Instruction) (pat colb : Nat),
      (send Identifier.Command instr (some [pat, 0xFF, colb, 0x00])).length = 16 ∧
      (send Identifier.Command instr (some [pat, 0xFF, colb, 0x00])).get? 6 = some 0x01 ∧
      (send Identifier.Command instr (some [pat, 0xFF, colb, 0x00])).get? 7 = some 0x00 ∧
      (send Identifier.Command instr (some [pat, 0xFF, colb, 0x00])).get? 8 = some 0x07) := by
  have hmod : (1 + data.length + 2) % 256 = 1 + data.length + 2 :=
    Nat.mod_eq_of_lt (by omega)
  have hdiv : (1 + data.length + 2) / 256 % 256 = 0 := by omega
  refine ⟨?_, ?_, ?_⟩
  · rw [send_some_eq pid cmd data h]
    simp [u16_be]
    omega
  · rw [send_some_eq pid cmd data h]
    simp [u16_be, u32_be, HEADER, ADDRESS, compute_checksum, hmod, hdiv]
    constructor
    · omega
    · omega
  · intro instr pat colb
    rw [send_some_eq Identifier.Command instr [pat, 0xFF, colb, 0x00] (by simp)]
    refine ⟨by simp [u16_be], ?_, ?_, ?_⟩
    · simp [Identifier.toByte]
    · simp
    · simp

/-- C3 witness: the amended layout property evaluated at identifier
Command, instruction code 0x35 and payload [1, 0xFF, 6, 0]. -/
theorem C3_frame_layout_witness :
    (([1, 0xFF, 6, 0] : List Nat).length ≤ 32) ∧
    ((send Identifier.Command (Instruction.mk 0x35) (some [1, 0xFF, 6, 0])).length =
        9 + 1 + ([1, 0xFF, 6, 0] : List Nat).length + 2 ∧
      send Identifier.Command (Instruction.mk 0x35) (some [1, 0xFF, 6, 0]) =
        u16_be HEADER ++ u32_be ADDRESS ++ [Identifier.Command.toByte] ++
          u16_be (1 + ([1, 0xFF, 6, 0] : List Nat).length + 2) ++
          [(Instruction.mk 0x35).code] ++ [1, 0xFF, 6, 0] ++
          u16_be (compute_checksum (u16_be HEADER ++ u32_be ADDRESS ++
            [Identifier.Command.toByte] ++
            u16_be (1 + ([1, 0xFF, 6, 0] : List Nat).length + 2) ++
            [(Instruction.mk 0x35).code] ++ [1, 0xFF, 6, 0])) ∧
      (∀ (instr : Instruction) (pat colb : Nat),
        (send Identifier.Command instr (some [pat, 0xFF, colb, 0x00])).length = 16 ∧
        (send Identifier.Command instr (some [pat, 0xFF, colb, 0x00])).get? 6 = some 0x01 ∧
        (send Identifier.Command instr (some [pat, 0xFF, colb, 0x00])).get? 7 = some 0x00 ∧
        (send Identifier.Command instr (some [pat, 0xFF, colb, 0x00])).get? 8 = some 0x07)) :=
  ⟨by decide, C3_frame_layout Identifier.Command (Instruction.mk 0x35) [1, 0xFF, 6, 0] (by decide)⟩

/-- C10: for every payload of length at most 32 (the payload type's
capacity), every internal fallible step of `send` succeeds — the checked
variant returns exactly the frame the unchecked `send` builds (so no
`extend_from_slice` ever drops bytes against the 256-byte output buffer and
the `usize → u16` conversion of `1 + payload.len() + 2 ≤ 35` never fails,
making the `unwrap` at line 148 unreachable) — and the frame never exceeds
44 bytes; the same holds in the no-payload case. -/
theorem C10_send_total (pid : Identifier) (cmd : Instruction) (data : List Nat)
    (h : data.length ≤ 32) :
    sendChecked pid cmd (some data) = some (send pid cmd (some data)) ∧
    (send pid cmd (some data)).length ≤ 44 ∧
    sendChecked pid cmd none = some (send pid cmd none) := by
  have hmod : (1 + data.length + 2) % 256 = 1 + data.length + 2 :=
    Nat.mod_eq_of_lt (by omega)
  have hdiv : (1 + data.length + 2) / 256 % 256 = 0 := by omega
  refine ⟨?_, ?_, ?_⟩
  · rw [send_some_eq pid cmd data h]
    simp only [sendChecked, extendChecked, pushChecked, Option.bind_eq_bind,
      Option.pure_def, u16_be, u32_be, HEADER, ADDRESS, compute_checksum,
      List.length_append, List.length_cons, List.length_nil,
      List.nil_append, List.cons_append, List.append_nil]
    norm_num [hmod, hdiv]
    split_ifs with h1
    · simp only [Option.some_bind]
      rw [if_pos (by simp only [List.length_append, List.length_cons, List.length_nil]; omega)]
      simp
      constructor
      · omega
      · omega
    · exfalso
      omega
  · rw [send_some_eq pid cmd data h]
    simp [u16_be]
    omega
  · rw [send_none_eq]
    simp only [sendChecked, extendChecked, pushChecked, Option.bind_eq_bind,
      Option.pure_def, u16_be, u32_be, HEADER, ADDRESS, compute_checksum,
      List.length_append, List.length_cons, List.length_nil,
      List.nil_append, List.cons_append, List.append_nil]
    norm_num

/-- C10 witness: the totality of `send` evaluated at identifier Command,
instruction code 0x35 and payload [1, 0xFF, 6, 0]. -/
theorem C10_send_total_witness :
    (([1, 0xFF, 6, 0] : List Nat).length ≤ 32) ∧
    (sendChecked Identifier.Command (Instruction.mk 0x35) (some [1, 0xFF, 6, 0]) =
        some (send Identifier.Command (Instruction.mk 0x35) (some [1, 0xFF, 6, 0])) ∧
      (send Identifier.Command (Instruction.mk 0x35) (some [1, 0xFF, 6, 0])).length ≤ 44 ∧
      sendChecked Identifier.Command (Instruction.mk 0x35) none =
        some (send Identifier.Command (Instruction.mk 0x35) none)) :=
  ⟨by decide, C10_send_total Identifier.Command (Instruction.mk 0x35) [1, 0xFF, 6, 0] (by decide)⟩

/-- C4: the claim says a byte arriving with the 64-byte accumulation buffer
full is dropped and the drain continues without aborting. The code instead
runs `data_read.push(read_buf[0]).unwrap()` (line 95), whose `unwrap`
panics on the `Err` that `heapless::Vec::push` returns when the buffer is
full — no out-of-bounds write happens (the buffer stays at its 64 bytes)
but the program aborts: delivering 65 bytes (here 65 × 0x41) with no
timeout ends the drain in a panic with the buffer holding the first 64. -/
theorem C4_overrun_panics :
    drainLoop [] (List.replicate 65 (some 0x41)) =
      DrainResult.panicked (List.replicate 64 0x41) := by
  decide

/-- C5 counterexample: for N = 65 the drain does not append exactly N bytes
and terminate at the first timeout — the 65th byte makes
`push(..).unwrap()` panic before the timeout is ever reached, so the claim
fails for N = 65 (it quantifies over every N). -/
theorem C5_counterexample :
    ¬ (drainLoop [] (List.replicate 65 (some 0) ++ [none]) =
        DrainResult.timedOut (List.replicate 65 0)) := by
  decide

/-- C5 (amended): for every N ≤ 64, if the transport yields N bytes and
then stalls, the reply drain appends exactly those N bytes to the
accumulation buffer and terminates at the first timeout; and the timeout
is the only way the drain terminates normally — whenever the drain ends in
`timedOut`, the outcome trace contained a timeout. -/
theorem C5_drain_exact (bytes : List Nat) (rest : List (Option Nat))
    (h : bytes.length ≤ 64) :
    drainLoop [] (bytes.map some ++ none :: rest) = DrainResult.timedOut bytes ∧
    (∀ (outs : List (Option Nat)) (buf : List Nat),
      drainLoop [] outs = DrainResult.timedOut buf → none ∈ outs) := by
  constructor
  · have := drainLoop_yields_then_stall bytes [] rest (by simpa using h)
    simpa using this
  · intro outs buf hto
    exact drainLoop_timedOut_has_stall outs [] buf hto

/-- C5 witness: the amended drain property evaluated at the byte sequence
[1, 2, 3] followed by a stall. -/
theorem C5_drain_exact_witness :
    (([1, 2, 3] : List Nat).length ≤ 64) ∧
    (drainLoop [] (([1, 2, 3] : List Nat).map some ++ none :: []) =
        DrainResult.timedOut [1, 2, 3] ∧
      (∀ (outs : List (Option Nat)) (buf : List Nat),
        drainLoop [] outs = DrainResult.timedOut buf → none ∈ outs)) :=
  ⟨by decide, C5_drain_exact [1, 2, 3] [] (by decide)⟩

theorem iteration_timedOut_eq (cat : Catalog) (level : Level) (w1 w2 : Bool)
    (reads : List (Option Nat)) (buf : List Nat)
    (hd : drainLoop [] reads = DrainResult.timedOut buf) :
    iteration cat level w1 w2 reads =
      if level = Level.Low then
        IterResult.complete [Event.write (primaryFrame cat level) w1, Event.drainEnd buf,
          Event.write (ackFrame cat) w2]
      else
        IterResult.complete [Event.write (primaryFrame cat level) w1, Event.drainEnd buf] := by
  cases level with
  | Low => simp [iteration, hd, primaryFrame_length, ackFrame_length, colorOf]
  | High => simp [iteration, hd, primaryFrame_length, colorOf]

/-- C6 counterexample: the claim's "in every iteration of the control loop"
includes iterations aborted by the reply-drain overrun panic (line 95, see
C4/C7). In the iteration where the level sampled is Low and 65 reply bytes
arrive before any timeout, the panic prevents the follow-up: the level is
the "in-progress" one, yet no follow-up frame is written, so the claimed
"if and only if" fails as stated. -/
theorem C6_followup_counterexample :
    Level.Low = Level.Low ∧
    ¬ (∃ w : Bool, Event.write (ackFrame cat0) w ∈
        (iteration cat0 Level.Low true true (List.replicate 65 (some 0))).events) := by
  refine ⟨rfl, ?_⟩
  decide

/-- C6 (amended): in every iteration of the control loop that completes
(one not aborted by the reply-drain overrun panic of line 95), the
follow-up LED-configuration command is written if and only if the level
sampled after the wake edge was Low (the level mapped to Cyan, the
"in-progress" color, lines 59-62 and 104), and the follow-up frame is
built by the same `send` path from the fixed acknowledge payload
[AlwaysOn, 0x00, Green, 0x00] (lines 105-115). -/
theorem C6_followup_iff (cat : Catalog) (level : Level) (w1 w2 : Bool)
    (reads : List (Option Nat)) (evs : List Event)
    (hc : iteration cat level w1 w2 reads = IterResult.complete evs) :
    ((Event.write (ackFrame cat) w2 ∈ evs) ↔ level = Level.Low) ∧
      ackFrame cat = send Identifier.Command cat.auraLedConfig
        (some [cat.patternByte LightPattern.AlwaysOn, 0x00,
          cat.colorByte Color.Green, 0x00]) := by
  refine ⟨?_, by rw [ackFrame, ackData_eq]⟩
  rcases hdr : drainLoop [] reads with buf | buf | buf
  · rw [iteration_timedOut_eq cat level w1 w2 reads buf hdr] at hc
    cases level with
    | Low =>
        rw [if_pos rfl] at hc
        injection hc with hevs
        subst hevs
        simp
    | High =>
        rw [if_neg (by decide)] at hc
        injection hc with hevs
        subst hevs
        simp [ackFrame_ne_primaryFrame cat Level.High]
  · simp [iteration, hdr, primaryFrame_length] at hc
  · simp [iteration, hdr, primaryFrame_length] at hc

/-- C6 witness: a completed Low-level iteration with an immediately stalling
transport, under the concrete catalog `cat0`. -/
theorem C6_followup_iff_witness :
    (iteration cat0 Level.Low true true [none] =
      IterResult.complete [Event.write (primaryFrame cat0 Level.Low) true,
        Event.drainEnd [], Event.write (ackFrame cat0) true]) ∧
    (((Event.write (ackFrame cat0) true ∈
        [Event.write (primaryFrame cat0 Level.Low) true, Event.drainEnd [],
          Event.write (ackFrame cat0) true]) ↔ Level.Low = Level.Low) ∧
      ackFrame cat0 = send Identifier.Command cat0.auraLedConfig
        (some [cat0.patternByte LightPattern.AlwaysOn, 0x00,
          cat0.colorByte Color.Green, 0x00])) :=
  ⟨by decide, C6_followup_iff cat0 Level.Low true true [none]
    [Event.write (primaryFrame cat0 Level.Low) true, Event.drainEnd [],
      Event.write (ackFrame cat0) true] (by decide)⟩

/-- C7: the claim says no error ever aborts the control loop and the loop
always returns to waiting for the next edge. The code violates this at
line 95: when more than 64 reply bytes arrive before a timeout,
`data_read.push(read_buf[0]).unwrap()` panics and the iteration never
reaches its end — here, with 65 reply bytes delivered, the iteration
aborts in a panic right after the primary write instead of completing. -/
theorem C7_overrun_aborts_loop :
    iteration cat0 Level.Low true true (List.replicate 65 (some 0)) =
      IterResult.panicked [Event.write (primaryFrame cat0 Level.Low) true] := by
  decide

/-- C8: the results `w1`, `w2` of the two transport writes (true = `Ok`,
false = the logged `Err`) have no effect on the iteration: the frames
written, the reply-drain outcome and whether the iteration completes are
identical to the all-success run (the drain in particular still runs after
the primary write), and the primary frame is written exactly once — never
retried — whatever the write results. -/
theorem C8_write_error_nonfatal (cat : Catalog) (level : Level) (w1 w2 : Bool)
    (reads : List (Option Nat)) :
    framesOf (iteration cat level w1 w2 reads) =
        framesOf (iteration cat level true true reads) ∧
      drainOf (iteration cat level w1 w2 reads) =
        drainOf (iteration cat level true true reads) ∧
      (iteration cat level w1 w2 reads).isComplete =
        (iteration cat level true true reads).isComplete ∧
      (framesOf (iteration cat level w1 w2 reads)).count (primaryFrame cat level) = 1 := by
  rcases hdr : drainLoop [] reads with buf | buf | buf <;> cases level <;>
    simp [iteration, hdr, primaryFrame_length, ackFrame_length, colorOf, framesOf,
      drainOf, IterResult.events, IterResult.isComplete, Event.writtenFrame,
      List.count_cons, ackFrame_ne_primaryFrame]

/-- C9: in every iteration of the control loop — whatever the write
results and transport behaviour, including iterations aborted by the
reply-drain panic — exactly one primary command frame is written per wake
edge (the follow-up frame differs from it and is never a second primary),
and whenever the follow-up is written it occurs strictly after the reply
drain has terminated: the event trace is the primary write alone (drain
never finished), or primary write then drain end, or primary write, drain
end, then the follow-up write (only on the Low level). -/
theorem C9_ordering (cat : Catalog) (level : Level) (w1 w2 : Bool)
    (reads : List (Option Nat)) :
    (framesOf (iteration cat level w1 w2 reads)).count (primaryFrame cat level) = 1 ∧
    ∃ buf : List Nat,
      ((iteration cat level w1 w2 reads).events =
          [Event.write (primaryFrame cat level) w1] ∨
        (iteration cat level w1 w2 reads).events =
          [Event.write (primaryFrame cat level) w1, Event.drainEnd buf] ∨
        (level = Level.Low ∧
          (iteration cat level w1 w2 reads).events =
            [Event.write (primaryFrame cat level) w1, Event.drainEnd buf,
              Event.write (ackFrame cat) w2])) ∧
      ackFrame cat ≠ primaryFrame cat level := by
  rcases hdr : drainLoop [] reads with buf | buf | buf
  · rw [iteration_timedOut_eq cat level w1 w2 reads buf hdr]
    cases level with
    | Low =>
        rw [if_pos rfl]
        refine ⟨?_, buf, Or.inr (Or.inr ⟨rfl, rfl⟩),
          ackFrame_ne_primaryFrame cat Level.Low⟩
        simp [framesOf, IterResult.events, Event.writtenFrame, List.count_cons,
          ackFrame_ne_primaryFrame cat Level.Low]
    | High =>
        rw [if_neg (by decide)]
        refine ⟨?_, buf, Or.inr (Or.inl rfl),
          ackFrame_ne_primaryFrame cat Level.High⟩
        simp [framesOf, IterResult.events, Event.writtenFrame, List.count_cons]
  · have hit : iteration cat level w1 w2 reads =
        IterResult.panicked [Event.write (primaryFrame cat level) w1] := by
      simp [iteration, hdr, primaryFrame_length]
    rw [hit]
    exact ⟨by simp [framesOf, IterResult.events, Event.writtenFrame, List.count_cons],
      [], Or.inl rfl, ackFrame_ne_primaryFrame cat level⟩
  · have hit : iteration cat level w1 w2 reads =
        IterResult.starved [Event.write (primaryFrame cat level) w1] := by
      simp [iteration, hdr, primaryFrame_length]
    rw [hit]
    exact ⟨by simp [framesOf, IterResult.events, Event.writtenFrame, List.count_cons],
      [], Or.inl rfl, ackFrame_ne_primaryFrame cat level⟩
